import Mathlib

/-!
Shallow embedding of `src/main.py` of the stockbot repository: the Alpha
Vantage quote resolver (`fetch_quote`, `_daily_close`, `_is_rate_limited`,
`_is_info_or_error`), the Slack command coordinator (`cmd_price`,
`build_price_text`, `build_watchlist_text`) and the watchlist remove loop of
`cmd_watchlist`.  HTTP exchanges are modelled by passing the upstream's
response for each outbound request explicitly; Python exceptions are modelled
with `Except`; Python floats produced by `float(...)` are modelled by the
`PyFloat` type (exact rationals plus the infinities and NaN).
-/

namespace StockBot

/-- JSON values as produced by `response.json()` in Python: null, booleans,
numbers, strings, arrays and objects (Python dicts with string keys). -/
inductive Json where
  | null
  | bool (b : Bool)
  | num (q : ℚ)
  | str (s : String)
  | arr (elems : List Json)
  | obj (kvs : List (String × Json))

mutual
/-- Structural equality test on JSON values (Python `==`). -/
def Json.beq : Json → Json → Bool
  | .null, .null => true
  | .bool a, .bool b => a == b
  | .num a, .num b => a == b
  | .str a, .str b => a == b
  | .arr a, .arr b => Json.beqArr a b
  | .obj a, .obj b => Json.beqObj a b
  | _, _ => false

/-- Elementwise equality of JSON arrays. -/
def Json.beqArr : List Json → List Json → Bool
  | [], [] => true
  | a :: as, b :: bs => Json.beq a b && Json.beqArr as bs
  | _, _ => false

/-- Entrywise equality of JSON objects. -/
def Json.beqObj : List (String × Json) → List (String × Json) → Bool
  | [], [] => true
  | (k, v) :: as, (l, w) :: bs => k == l && Json.beq v w && Json.beqObj as bs
  | _, _ => false
end

instance : BEq Json := ⟨Json.beq⟩

/-- Python exceptions that the translated code can raise. -/
inductive PyErr where
  | attributeError
  | typeError
deriving DecidableEq

/-- Python truthiness of a JSON value (`if not x`, `x or y`). -/
def pyTruthy : Json → Bool
  | .null => false
  | .bool b => b
  | .num q => decide (q ≠ 0)
  | .str s => decide (s ≠ "")
  | .arr elems => !elems.isEmpty
  | .obj kvs => !kvs.isEmpty

/-- Lookup of a key in a Python dict (first matching key). -/
def jsonLookup : List (String × Json) → String → Option Json
  | [], _ => none
  | (k, v) :: rest, key => if k = key then some v else jsonLookup rest key

/-- Lexicographic comparison of char lists by code point, as Python compares
strings.  `charListLe a b` is true iff `a <= b`. -/
def charListLe : List Char → List Char → Bool
  | [], _ => true
  | _ :: _, [] => false
  | a :: as, b :: bs =>
    if a.toNat < b.toNat then true
    else if b.toNat < a.toNat then false
    else charListLe as bs

/-- Python string comparison `a <= b` (code-point lexicographic). -/
def strLe (a b : String) : Bool := charListLe a.toList b.toList

/-- Python `max` of two strings under code-point order. -/
def maxStr (a b : String) : String := if strLe a b then b else a

/-- Models `sorted(keys)[-1]` of `_daily_close`: the last element of the
ascending sort of a key list is its maximum, here computed by a fold;
`none` exactly when the list is empty. -/
def latestDay : List String → Option String
  | [] => none
  | k :: ks => some (ks.foldl maxStr k)

/-- Python substring test `needle in hay` on strings. -/
def containsSub (hay needle : String) : Bool :=
  (List.range (hay.toList.length + 1)).any
    (fun i => needle.toList.isPrefixOf (hay.toList.drop i))

/-- Rendering of a rational as in `str(...)`; abstracts Python's numeric
formatting (the exact digits are irrelevant: only the presence of the
rate-limit sentinel phrase in the rendering is ever inspected). -/
def reprQ (q : ℚ) : String :=
  if q.den = 1 then toString q.num else toString q.num ++ "/" ++ toString q.den

mutual
/-- Python `repr` of a JSON value, as used by `str(payload)` on dicts:
dicts render as `\x7b'key': value, ...\x7d`, strings are quoted. -/
def pyRepr : Json → String
  | .null => "None"
  | .bool true => "True"
  | .bool false => "False"
  | .num q => reprQ q
  | .str s => "\x27" ++ s ++ "\x27"
  | .arr elems => "[" ++ pyReprArr elems ++ "]"
  | .obj kvs => "\x7b" ++ pyReprObj kvs ++ "\x7d"

/-- Comma-separated rendering of list elements. -/
def pyReprArr : List Json → String
  | [] => ""
  | [v] => pyRepr v
  | v :: rest => pyRepr v ++ ", " ++ pyReprArr rest

/-- Comma-separated rendering of dict entries. -/
def pyReprObj : List (String × Json) → String
  | [] => ""
  | [(k, v)] => "\x27" ++ k ++ "\x27: " ++ pyRepr v
  | (k, v) :: rest => "\x27" ++ k ++ "\x27: " ++ pyRepr v ++ ", " ++ pyReprObj rest
end

/-- Python `str(x)`: a string renders as itself, everything else as its repr. -/
def pyStr : Json → String
  | .str s => s
  | v => pyRepr v

/-- Python membership `key in payload`: key test on dicts, substring test on
strings, element test on lists; `TypeError` on numbers, booleans and `None`. -/
def pyIn (key : String) : Json → Except PyErr Bool
  | .obj kvs => .ok ((kvs.map Prod.fst).contains key)
  | .str s => .ok (containsSub s key)
  | .arr elems => .ok (elems.contains (Json.str key))
  | _ => .error .typeError

/-- Python `payload.get(key)`: `AttributeError` unless the value is a dict. -/
def pyGet (j : Json) (key : String) : Except PyErr (Option Json) :=
  match j with
  | .obj kvs => .ok (jsonLookup kvs key)
  | _ => .error .attributeError

/-- Values of Python `float(...)`: exact finite values plus infinities and NaN. -/
inductive PyFloat where
  | finite (q : ℚ)
  | inf
  | negInf
  | nan
deriving DecidableEq

/-- Numeric value of a digit list (most significant first). -/
def digitsVal (cs : List Char) : Nat :=
  cs.foldl (fun a c => a * 10 + (c.toNat - 48)) 0

/-- Python `str.strip()`: drop leading and trailing whitespace. -/
def pyStrip (s : String) : String :=
  String.mk (((s.toList.dropWhile Char.isWhitespace).reverse.dropWhile
    Char.isWhitespace).reverse)

/-- Decimal part of Python float parsing: `digits[.digits][(e|E)[+-]digits]`,
at least one mantissa digit required. -/
def parseDecimal (sign : Int) (cs : List Char) : Option PyFloat :=
  let ipRest := cs.span Char.isDigit
  let fpRest :=
    match ipRest.2 with
    | '.' :: r => r.span Char.isDigit
    | _ => ([], ipRest.2)
  if ipRest.1.isEmpty ∧ fpRest.1.isEmpty then none
  else
    let num : Int := sign * ((digitsVal ipRest.1 * 10 ^ fpRest.1.length + digitsVal fpRest.1 : Nat) : Int)
    let den : Nat := 10 ^ fpRest.1.length
    match fpRest.2 with
    | [] => some (.finite (mkRat num den))
    | e :: r =>
      if e = 'e' ∨ e = 'E' then
        let esR :=
          match r with
          | '+' :: rr => ((1 : Int), rr)
          | '-' :: rr => ((-1 : Int), rr)
          | rr => ((1 : Int), rr)
        let edRest := esR.2.span Char.isDigit
        if edRest.1.isEmpty ∨ !edRest.2.isEmpty then none
        else
          let ex := digitsVal edRest.1
          some (.finite (if esR.1 = 1 then mkRat (num * (10 : Int) ^ ex) den
                         else mkRat num (den * 10 ^ ex)))
      else none

/-- Python `float(s)` on a string: strip, optional sign, then a decimal
literal or one of `inf`, `infinity`, `nan` (case-insensitive);
`none` models a `ValueError`. -/
def parsePyFloat (s : String) : Option PyFloat :=
  let cs := (pyStrip s).toList
  let signRest :=
    match cs with
    | '+' :: r => ((1 : Int), r)
    | '-' :: r => ((-1 : Int), r)
    | r => ((1 : Int), r)
  let lower := signRest.2.map Char.toLower
  if lower = "inf".toList ∨ lower = "infinity".toList then
    some (if signRest.1 = 1 then .inf else .negInf)
  else if lower = "nan".toList then some .nan
  else parseDecimal signRest.1 signRest.2

/-- Python `float(x)` on an arbitrary value: numbers and booleans convert,
strings are parsed, everything else raises (modelled as `none`, which the
source code always catches). -/
def pyFloat : Json → Option PyFloat
  | .num q => some (.finite q)
  | .bool b => some (.finite (if b then 1 else 0))
  | .str s => parsePyFloat s
  | _ => none

/-- Outcome of one outbound HTTP GET plus `.json()`: either a parsed JSON
body, or a network/parse failure (any exception inside the request `try`). -/
inductive HttpResult where
  | ok (j : Json)
  | fail

/-- The upstream's responses for one `fetch_quote` call: the GLOBAL_QUOTE
response and the TIME_SERIES_DAILY response used if the fallback is taken. -/
structure Upstream where
  live : HttpResult
  daily : HttpResult

/-- Result tuples of `fetch_quote` in `src/main.py`:
`("RATE_LIMIT", None, None, None)`, `(price, change, pct, "GLOBAL")`,
`(price, 0.0, "—", "DAILY")` and `(None, None, None, None)`. -/
inductive QuoteResult where
  | rateLimit
  | live (price change : PyFloat) (pct : Json)
  | dailyClose (price : PyFloat)
  | noData

/-- Result of `_daily_close`: `("DAILY", px)`, `("RATE_LIMIT", None)` or
`(None, None)`. -/
inductive DailyResult where
  | daily (px : PyFloat)
  | rateLimit
  | noData

/-- `_is_rate_limited(payload)`: `("Note" in payload) or
("Thank you for using Alpha Vantage" in str(payload))`. -/
def is_rate_limited (payload : Json) : Except PyErr Bool := do
  let txt := pyStr payload
  let hasNote ← pyIn "Note" payload
  pure (hasNote || containsSub txt "Thank you for using Alpha Vantage")

/-- `_is_info_or_error(payload)`: `("Information" in payload) or
("Error Message" in payload)`, with Python's short-circuit `or`. -/
def is_info_or_error (payload : Json) : Except PyErr Bool := do
  let a ← pyIn "Information" payload
  if a then pure true else pyIn "Error Message" payload

/-- `_daily_close` of `src/main.py` (the URL/timeout plumbing elided; the
response to the single GET is passed in).  A request failure, an info/error
payload, a missing/empty/non-dict time series, or any parse failure inside
the `try` block all yield no data. -/
def daily_close (resp : HttpResult) : Except PyErr DailyResult :=
  match resp with
  | .fail => .ok .noData
  | .ok j => do
    let rl ← is_rate_limited j
    if rl then return .rateLimit
    let ie ← is_info_or_error j
    if ie then return .noData
    let ts ← pyGet j "Time Series (Daily)"
    match ts with
    | some (Json.obj tsKvs) =>
      if tsKvs.isEmpty then return .noData
      else
        match latestDay (tsKvs.map Prod.fst) with
        | none => return .noData
        | some day =>
          match jsonLookup tsKvs day with
          | some (Json.obj dayRec) =>
            match jsonLookup dayRec "4. close" with
            | some c =>
              match pyFloat c with
              | some px => return .daily px
              | none => return .noData
            | none => return .noData
          | _ => return .noData
    | _ => return .noData

/-- Python `a or b` over optional JSON values (`None` is falsy). -/
def pyOrOpt (a b : Option Json) : Option Json :=
  match a with
  | some v => if pyTruthy v then some v else b
  | none => b

/-- `j.get("Global Quote") or j.get("GlobalQuote") or {}` in `fetch_quote`
(line 89), with Python's short-circuit evaluation of the two `get` calls. -/
def globalQuoteOf (j : Json) : Except PyErr Json := do
  let a ← pyGet j "Global Quote"
  match a with
  | some v =>
    if pyTruthy v then pure v
    else do
      let b ← pyGet j "GlobalQuote"
      pure (match pyOrOpt b (some (Json.obj [])) with
            | some w => w
            | none => Json.obj [])
  | none => do
    let b ← pyGet j "GlobalQuote"
    pure (match pyOrOpt b (some (Json.obj [])) with
          | some w => w
          | none => Json.obj [])

/-- `quote.get("05. price") or quote.get("05.price")` (line 90). -/
def priceField (quote : Json) : Except PyErr (Option Json) := do
  let a ← pyGet quote "05. price"
  match a with
  | some v =>
    if pyTruthy v then pure (some v)
    else pyGet quote "05.price"
  | none => pyGet quote "05.price"

/-- `quote.get("09. change") or quote.get("09.change")` (line 91). -/
def chgField (quote : Json) : Except PyErr (Option Json) := do
  let a ← pyGet quote "09. change"
  match a with
  | some v =>
    if pyTruthy v then pure (some v)
    else pyGet quote "09.change"
  | none => pyGet quote "09.change"

/-- `quote.get("10. change percent") or quote.get("10.change percent")`
(line 92). -/
def pctField (quote : Json) : Except PyErr (Option Json) := do
  let a ← pyGet quote "10. change percent"
  match a with
  | some v =>
    if pyTruthy v then pure (some v)
    else pyGet quote "10.change percent"
  | none => pyGet quote "10.change percent"

/-- The `try` block of `fetch_quote` (lines 95-102): if the price field is
present and `float(px)` and `float(chg or 0.0)` both succeed, build the
GLOBAL tuple; any failure falls through (`none`) to the daily fallback. -/
def tryLive (px chg pct : Option Json) : Option QuoteResult :=
  match px with
  | none => none
  | some pxv =>
    match pyFloat pxv with
    | none => none
    | some priceVal =>
      let chgParsed : Option PyFloat :=
        match chg with
        | some v => if pyTruthy v then pyFloat v else some (.finite 0)
        | none => some (.finite 0)
      match chgParsed with
      | none => none
      | some changeVal =>
        some (.live priceVal changeVal
          (match pct with
           | some v => if pyTruthy v then v else Json.str "0.00%"
           | none => Json.str "0.00%"))

/-- `float(chg or 0.0)` of line 98, on its own: a missing or falsy change
field becomes `0.0`, a present truthy one is parsed; `none` is the raised
`ValueError`/`TypeError` (caught by the surrounding `try`). -/
def chgParse (chg : Option Json) : Option PyFloat :=
  match chg with
  | some v => if pyTruthy v then pyFloat v else some (.finite 0)
  | none => some (.finite 0)

/-- `pct or "0.00%"` of line 99, on its own. -/
def pctOr (pct : Option Json) : Json :=
  match pct with
  | some v => if pyTruthy v then v else Json.str "0.00%"
  | none => Json.str "0.00%"

/-- Mapping of the `_daily_close` result to the `fetch_quote` return tuple
(lines 105-111). -/
def dailyToQuote : DailyResult → QuoteResult
  | .rateLimit => .rateLimit
  | .daily px => .dailyClose px
  | .noData => .noData

/-- `fetch_quote` of `src/main.py`.  The second component counts how many
times `_daily_close` is invoked during the call.  A network/JSON failure on
the primary GET leaves `j = \x7b\x7d`; the ticker argument only feeds the
request URL and does not influence the classification. -/
def fetch_quote (ticker : String) (up : Upstream) : Except PyErr (QuoteResult × Nat) := do
  let j := match up.live with | .ok v => v | .fail => Json.obj []
  let rl ← is_rate_limited j
  if rl then return (.rateLimit, 0)
  let _ ← is_info_or_error j
  let quote ← globalQuoteOf j
  let px ← priceField quote
  let chg ← chgField quote
  let pct ← pctField quote
  match tryLive px chg pct with
  | some res => return (res, 0)
  | none => do
    let d ← daily_close up.daily
    return (dailyToQuote d, 1)

/-- Python `str.upper()` (tickers are ASCII). -/
def pyUpper (s : String) : String := String.mk (s.toList.map Char.toUpper)

/-- Fixed-point rendering of a Python float, modelling the `:.2f` / `:.4f`
format specifiers: round `q * 10 ^ prec` to the nearest integer (the floor
of `q * 10 ^ prec + 1 / 2`, computed by integer floor division) and insert
the decimal point; infinities and NaN render by name as in Python. -/
def fmtFixed (prec : Nat) (x : PyFloat) : String :=
  match x with
  | .inf => "inf"
  | .negInf => "-inf"
  | .nan => "nan"
  | .finite q =>
    let scaled : ℤ := Int.fdiv (2 * q.num * (10 : ℤ) ^ prec + (q.den : ℤ)) (2 * (q.den : ℤ))
    let sign := if scaled < 0 then "-" else ""
    let ds0 := (toString scaled.natAbs).toList
    let ds := if ds0.length < prec + 1 then
        List.replicate (prec + 1 - ds0.length) '0' ++ ds0 else ds0
    sign ++ String.mk (ds.take (ds.length - prec)) ++
      (if prec = 0 then "" else "." ++ String.mk (ds.drop (ds.length - prec)))

/-- The GLOBAL reply line `f"T: $price:.2f (Δ change:.4f, pct)"` shared by
`cmd_price`, `build_price_text` and `build_watchlist_text`. -/
def liveMsg (t : String) (price change : PyFloat) (pct : Json) : String :=
  t ++ ": $" ++ fmtFixed 2 price ++ " (Δ " ++ fmtFixed 4 change ++ ", " ++ pyStr pct ++ ")"

/-- The DAILY reply line `f"T: $price:.2f (latest daily close)"`. -/
def dailyMsg (t : String) (price : PyFloat) : String :=
  t ++ ": $" ++ fmtFixed 2 price ++ " (latest daily close)"

/-- `build_price_text` of `src/main.py`: the missing-credential check, then
one reply line per `fetch_quote` outcome.  `alphaKey` is the stripped
`ALPHA_KEY` environment value; `up` the upstream responses of the fresh
`fetch_quote` call the function performs. -/
def build_price_text (alphaKey ticker : String) (up : Upstream) : Except PyErr String := do
  let t := pyUpper ticker
  if alphaKey = "" then return t ++ ": Alpha Vantage API key missing."
  let q ← fetch_quote ticker up
  match q.1 with
  | .rateLimit => return t ++ ": Alpha Vantage free-tier rate limit hit. Try again in ~15–60s."
  | .noData => return t ++ ": No quote returned for that symbol right now."
  | .live p c pct => return liveMsg t p c pct
  | .dailyClose p => return dailyMsg t p

/-- A Slack slash-command reply body: `response_type` and `text`. -/
structure SlackReply where
  response_type : String
  text : String
deriving DecidableEq

/-- The `/slack/price` handler `cmd_price`: strip the argument, answer usage
for an empty command, otherwise call `fetch_quote` once; GLOBAL and DAILY
results are formatted and returned in-channel, everything else gets the
ephemeral `"Working…"` acknowledgment.  The boolean records whether a
background thread (the deferred `build_price_text` delivery) is spawned. -/
def cmd_price (rawText : String) (up : Upstream) : Except PyErr (SlackReply × Bool) :=
  let text := pyStrip rawText
  if text = "" then .ok (⟨"in_channel", "Usage: `/price AAPL`"⟩, false)
  else do
    let q ← fetch_quote text up
    match q.1 with
    | .live p c pct => pure (⟨"in_channel", liveMsg (pyUpper text) p c pct⟩, false)
    | .dailyClose p => pure (⟨"in_channel", dailyMsg (pyUpper text) p⟩, false)
    | _ => pure (⟨"ephemeral", "Working…"⟩, true)

/-- One line of the watchlist reply (lines 184-193): GLOBAL and DAILY render
their price, `RATE_LIMIT` reports the limitation, no data reports
`"(no data)"`. -/
def watchLine (t : String) (q : QuoteResult) : String :=
  match q with
  | .live p c pct => liveMsg t p c pct
  | .dailyClose p => dailyMsg t p
  | .rateLimit => t ++ ": rate limited (try later)"
  | .noData => t ++ ": (no data)"

/-- Insert into an ascending list under Python string order. -/
def insertAsc (x : String) : List String → List String
  | [] => [x]
  | y :: ys => if strLe x y then x :: y :: ys else y :: insertAsc x ys

/-- Models Python `sorted(watchlist)`: ascending code-point order. -/
def sortSymbols (l : List String) : List String := l.foldr insertAsc []

/-- Sequentially map an `Except`-valued function, aborting at the first
error: the watchlist `for` loop building `lines`. -/
def mapExcept (f : String → Except PyErr String) : List String → Except PyErr (List String)
  | [] => .ok []
  | t :: ts => do
    let line ← f t
    let rest ← mapExcept f ts
    pure (line :: rest)

/-- `build_watchlist_text` of `src/main.py`: empty-watchlist message, else
one `fetch_quote` per symbol in sorted order, one line per symbol (the
`time.sleep(0.4)` throttle has no effect on the produced text).  `env` gives
the upstream responses for each symbol's call. -/
def build_watchlist_text (wl : List String) (env : String → Upstream) : Except PyErr String :=
  if wl.isEmpty then .ok "📭 Watchlist is empty."
  else do
    let lines ← mapExcept
      (fun t => do
        let q ← fetch_quote t (env t)
        pure (watchLine t q.1)) (sortSymbols wl)
    pure ("📊 Watchlist:\n" ++ String.intercalate "\n" lines)

/-- The `remove` loop of `cmd_watchlist` (lines 220-224): per ticker, append
to `removed` and delete from the store if present, else append to `missing`.
Returns the final store, the removed list and the missing list, in encounter
order. -/
def removeGo : List String → List String → List String × List String × List String
  | wl, [] => (wl, [], [])
  | wl, t :: ts =>
    if t ∈ wl then
      let r := removeGo (wl.erase t) ts
      (r.1, t :: r.2.1, r.2.2)
    else
      let r := removeGo wl ts
      (r.1, r.2.1, t :: r.2.2)

/-- `remove` of the watchlist command: store contents and tickers in,
`(new store, removed, missing)` out. -/
def removeSymbols (wl tickers : List String) : List String × List String × List String :=
  removeGo wl tickers

/-! Helper lemmas about the embedded definitions. -/

/-- On a dict payload, `_is_rate_limited` never raises and tests the `Note`
key and the sentinel phrase in the rendering. -/
theorem is_rate_limited_obj (kvs : List (String × Json)) :
    is_rate_limited (Json.obj kvs) =
      .ok ((kvs.map Prod.fst).contains "Note" ||
        containsSub (pyStr (Json.obj kvs)) "Thank you for using Alpha Vantage") := rfl

/-- On a dict payload, `_is_info_or_error` never raises and tests the two
keys. -/
theorem is_info_or_error_obj (kvs : List (String × Json)) :
    is_info_or_error (Json.obj kvs) =
      .ok ((kvs.map Prod.fst).contains "Information" ||
        (kvs.map Prod.fst).contains "Error Message") := by
  have h0 : is_info_or_error (Json.obj kvs) =
      (if (kvs.map Prod.fst).contains "Information" then Except.ok true
       else Except.ok ((kvs.map Prod.fst).contains "Error Message")) := rfl
  rw [h0]
  cases h : (kvs.map Prod.fst).contains "Information" <;> rfl

/-- On a dict, the price-field extraction never raises and computes the
Python `or` of the two lookups. -/
theorem priceField_obj (qkvs : List (String × Json)) :
    priceField (Json.obj qkvs) =
      .ok (pyOrOpt (jsonLookup qkvs "05. price") (jsonLookup qkvs "05.price")) := by
  have h0 : priceField (Json.obj qkvs) =
      (match jsonLookup qkvs "05. price" with
       | some v => if pyTruthy v then Except.ok (some v)
                   else Except.ok (jsonLookup qkvs "05.price")
       | none => Except.ok (jsonLookup qkvs "05.price")) := rfl
  rw [h0]
  cases h : jsonLookup qkvs "05. price" with
  | none => rfl
  | some v => cases hv : pyTruthy v <;> simp [pyOrOpt, hv]

/-- On a dict, the change-field extraction never raises. -/
theorem chgField_obj (qkvs : List (String × Json)) :
    chgField (Json.obj qkvs) =
      .ok (pyOrOpt (jsonLookup qkvs "09. change") (jsonLookup qkvs "09.change")) := by
  have h0 : chgField (Json.obj qkvs) =
      (match jsonLookup qkvs "09. change" with
       | some v => if pyTruthy v then Except.ok (some v)
                   else Except.ok (jsonLookup qkvs "09.change")
       | none => Except.ok (jsonLookup qkvs "09.change")) := rfl
  rw [h0]
  cases h : jsonLookup qkvs "09. change" with
  | none => rfl
  | some v => cases hv : pyTruthy v <;> simp [pyOrOpt, hv]

/-- On a dict, the percent-field extraction never raises. -/
theorem pctField_obj (qkvs : List (String × Json)) :
    pctField (Json.obj qkvs) =
      .ok (pyOrOpt (jsonLookup qkvs "10. change percent") (jsonLookup qkvs "10.change percent")) := by
  have h0 : pctField (Json.obj qkvs) =
      (match jsonLookup qkvs "10. change percent" with
       | some v => if pyTruthy v then Except.ok (some v)
                   else Except.ok (jsonLookup qkvs "10.change percent")
       | none => Except.ok (jsonLookup qkvs "10.change percent")) := rfl
  rw [h0]
  cases h : jsonLookup qkvs "10. change percent" with
  | none => rfl
  | some v => cases hv : pyTruthy v <;> simp [pyOrOpt, hv]

/-- The code-point order on char lists is reflexive. -/
theorem charListLe_refl (l : List Char) : charListLe l l = true := by
  induction l with
  | nil => rfl
  | cons a as ih =>
    simp only [charListLe]
    rw [if_neg (Nat.lt_irrefl _), if_neg (Nat.lt_irrefl _)]
    exact ih

/-- The code-point order on char lists is total. -/
theorem charListLe_total (a b : List Char) : charListLe a b = true ∨ charListLe b a = true := by
  induction a generalizing b with
  | nil => left; rfl
  | cons x xs ih =>
    cases b with
    | nil => right; rfl
    | cons y ys =>
      simp only [charListLe]
      by_cases h1 : x.toNat < y.toNat
      · left; rw [if_pos h1]
      · by_cases h2 : y.toNat < x.toNat
        · right; rw [if_pos h2]
        · rw [if_neg h1, if_neg h2, if_neg h2, if_neg h1]
          exact ih ys

/-- The code-point order on char lists is transitive. -/
theorem charListLe_trans (a b c : List Char) (h1 : charListLe a b = true)
    (h2 : charListLe b c = true) : charListLe a c = true := by
  induction a generalizing b c with
  | nil => rfl
  | cons x xs ih =>
    cases b with
    | nil => simp [charListLe] at h1
    | cons y ys =>
      cases c with
      | nil => simp [charListLe] at h2
      | cons z zs =>
        simp only [charListLe] at h1 h2 ⊢
        by_cases hxy : x.toNat < y.toNat
        · by_cases hyz : y.toNat < z.toNat
          · rw [if_pos (Nat.lt_trans hxy hyz)]
          · by_cases hzy : z.toNat < y.toNat
            · rw [if_neg hyz, if_pos hzy] at h2
              exact absurd h2 (by simp)
            · have hxz : x.toNat < z.toNat := by omega
              rw [if_pos hxz]
        · by_cases hyx : y.toNat < x.toNat
          · rw [if_neg hxy, if_pos hyx] at h1
            exact absurd h1 (by simp)
          · rw [if_neg hxy, if_neg hyx] at h1
            by_cases hyz : y.toNat < z.toNat
            · have hxz : x.toNat < z.toNat := by omega
              rw [if_pos hxz]
            · by_cases hzy : z.toNat < y.toNat
              · rw [if_neg hyz, if_pos hzy] at h2
                exact absurd h2 (by simp)
              · rw [if_neg hyz, if_neg hzy] at h2
                have hxz : ¬ x.toNat < z.toNat := by omega
                have hzx : ¬ z.toNat < x.toNat := by omega
                rw [if_neg hxz, if_neg hzx]
                exact ih ys zs h1 h2

/-- `strLe` is reflexive. -/
theorem strLe_refl (a : String) : strLe a a = true := charListLe_refl _

/-- `strLe` is total. -/
theorem strLe_total (a b : String) : strLe a b = true ∨ strLe b a = true :=
  charListLe_total _ _

/-- `strLe` is transitive. -/
theorem strLe_trans (a b c : String) (h1 : strLe a b = true) (h2 : strLe b c = true) :
    strLe a c = true := charListLe_trans _ _ _ h1 h2

/-- The binary maximum returns one of its arguments. -/
theorem maxStr_eq_or (a b : String) : maxStr a b = a ∨ maxStr a b = b := by
  unfold maxStr; split
  · right; rfl
  · left; rfl

/-- The binary maximum is at least its left argument. -/
theorem strLe_maxStr_left (a b : String) : strLe a (maxStr a b) = true := by
  unfold maxStr; split
  · assumption
  · exact strLe_refl a

/-- The binary maximum is at least its right argument. -/
theorem strLe_maxStr_right (a b : String) : strLe b (maxStr a b) = true := by
  unfold maxStr; split
  · exact strLe_refl b
  · rcases strLe_total a b with h | h
    · contradiction
    · exact h

/-- The fold of `maxStr` stays within the seed and the list. -/
theorem foldl_maxStr_mem (l : List String) : ∀ a, l.foldl maxStr a ∈ a :: l := by
  induction l with
  | nil => intro a; simp
  | cons b bs ih =>
    intro a
    simp only [List.foldl_cons]
    have h2 := ih (maxStr a b)
    rcases List.mem_cons.mp h2 with h3 | h3
    · rw [h3]
      rcases maxStr_eq_or a b with h | h
      · rw [h]; exact List.mem_cons_self _ _
      · rw [h]; exact List.mem_cons_of_mem _ (List.mem_cons_self _ _)
    · exact List.mem_cons_of_mem _ (List.mem_cons_of_mem _ h3)

/-- The fold of `maxStr` dominates the seed and every list element. -/
theorem foldl_maxStr_ub (l : List String) : ∀ a k, k ∈ a :: l →
    strLe k (l.foldl maxStr a) = true := by
  induction l with
  | nil =>
    intro a k hk
    rcases List.mem_cons.mp hk with h | h
    · rw [h]; exact strLe_refl a
    · simp at h
  | cons b bs ih =>
    intro a k hk
    simp only [List.foldl_cons]
    rcases List.mem_cons.mp hk with h | h
    · rw [h]
      exact strLe_trans _ _ _ (strLe_maxStr_left a b)
        (ih (maxStr a b) (maxStr a b) (List.mem_cons_self _ _))
    · rcases List.mem_cons.mp h with h3 | h3
      · rw [h3]
        exact strLe_trans _ _ _ (strLe_maxStr_right a b)
          (ih (maxStr a b) (maxStr a b) (List.mem_cons_self _ _))
      · exact ih (maxStr a b) k (List.mem_cons_of_mem _ h3)

/-- `latestDay` yields a member of the key list that dominates every key in
the code-point (hence ISO-date) order. -/
theorem latestDay_spec (keys : List String) (d : String) (h : latestDay keys = some d) :
    d ∈ keys ∧ ∀ k ∈ keys, strLe k d = true := by
  cases keys with
  | nil => simp [latestDay] at h
  | cons k ks =>
    simp only [latestDay, Option.some.injEq] at h
    subst h
    exact ⟨foldl_maxStr_mem ks k, fun x hx => foldl_maxStr_ub ks k x hx⟩

/-- Inserting into an ascending list adds one element. -/
theorem insertAsc_length (x : String) (l : List String) :
    (insertAsc x l).length = l.length + 1 := by
  induction l with
  | nil => rfl
  | cons y ys ih =>
    simp only [insertAsc]
    split
    · simp
    · simp [ih]

/-- Sorting does not change the number of symbols. -/
theorem sortSymbols_length (l : List String) : (sortSymbols l).length = l.length := by
  induction l with
  | nil => rfl
  | cons x xs ih =>
    simp only [sortSymbols, List.foldr_cons] at ih ⊢
    rw [insertAsc_length, ih]
    rfl

/-- A pointwise-successful `mapExcept` produces the mapped list. -/
theorem mapExcept_ok (f : String → Except PyErr String) (g : String → String)
    (l : List String) (h : ∀ t ∈ l, f t = .ok (g t)) :
    mapExcept f l = .ok (l.map g) := by
  induction l with
  | nil => rfl
  | cons t ts ih =>
    simp only [mapExcept]
    rw [h t (List.mem_cons_self _ _), ih (fun x hx => h x (List.mem_cons_of_mem _ hx))]
    rfl

/-- Bind on a successful `Except` computation applies the continuation. -/
theorem exceptBind_ok {α β : Type} (a : α) (f : α → Except PyErr β) :
    (Except.ok a >>= f) = f a := rfl

/-- Bind on a failed `Except` computation propagates the failure. -/
theorem exceptBind_error {α β : Type} (e : PyErr) (f : α → Except PyErr β) :
    ((Except.error e : Except PyErr α) >>= f) = Except.error e := rfl

/-- Bind on `pure` applies the continuation. -/
theorem exceptPure_bind {α β : Type} (a : α) (f : α → Except PyErr β) :
    ((pure a : Except PyErr α) >>= f) = f a := rfl

/-- When the primary payload is classified rate-limited, `fetch_quote`
returns the RATE_LIMIT tuple and `_daily_close` is invoked zero times. -/
theorem fetch_quote_of_rate_limited (ticker : String) (j : Json) (dr : HttpResult)
    (h : is_rate_limited j = .ok true) :
    fetch_quote ticker ⟨.ok j, dr⟩ = .ok (.rateLimit, 0) := by
  simp only [fetch_quote, h]
  rfl

/-- The `try` block expressed through its named sub-steps: the Live tuple is
built from the parsed price, the parsed-or-defaulted change and the
defaulted percent string. -/
theorem tryLive_eq (px chg pct : Option Json) :
    tryLive px chg pct =
      (match px with
       | none => none
       | some pxv =>
         match pyFloat pxv with
         | none => none
         | some v =>
           match chgParse chg with
           | none => none
           | some c => some (.live v c (pctOr pct))) := rfl

/-- On a dict live payload that is not rate-limited, a missing or unparsable
price field sends `fetch_quote` to the fallback: the outcome is the mapped
`_daily_close` result with invocation count one. -/
theorem fetch_quote_fallback (ticker : String)
    (kvs qkvs : List (String × Json)) (px : Option Json) (dr : HttpResult)
    (hrl : is_rate_limited (Json.obj kvs) = .ok false)
    (hq : globalQuoteOf (Json.obj kvs) = .ok (Json.obj qkvs))
    (hpx : priceField (Json.obj qkvs) = .ok px)
    (hbad : px = none ∨ ∃ v, px = some v ∧ pyFloat v = none) :
    fetch_quote ticker ⟨.ok (Json.obj kvs), dr⟩ =
      Except.map (fun d => (dailyToQuote d, 1)) (daily_close dr) := by
  have htl : tryLive px
      (pyOrOpt (jsonLookup qkvs "09. change") (jsonLookup qkvs "09.change"))
      (pyOrOpt (jsonLookup qkvs "10. change percent") (jsonLookup qkvs "10.change percent")) =
      none := by
    rcases hbad with h | ⟨v, hv, hpf⟩
    · rw [h]; rfl
    · rw [hv]; simp only [tryLive, hpf]
  simp only [fetch_quote, hrl, is_info_or_error_obj, hq, hpx, chgField_obj, pctField_obj,
    exceptBind_ok, exceptPure_bind, Bool.false_eq_true, if_false, htl]
  cases hd : daily_close dr with
  | ok d => simp [hd, Except.map, exceptBind_ok]
  | error e => simp [hd, Except.map, exceptBind_error]

/-- On a dict daily payload that is neither rate-limited nor an info/error
notice, `_daily_close` returns the parsed `"4. close"` of the `latestDay`
key of a non-empty time-series dict. -/
theorem daily_close_latest (dkvs tsKvs dayRec : List (String × Json))
    (d : String) (cJ : Json) (w : PyFloat)
    (hrl : is_rate_limited (Json.obj dkvs) = .ok false)
    (hie : is_info_or_error (Json.obj dkvs) = .ok false)
    (hts : jsonLookup dkvs "Time Series (Daily)" = some (Json.obj tsKvs))
    (hld : latestDay (tsKvs.map Prod.fst) = some d)
    (hlook : jsonLookup tsKvs d = some (Json.obj dayRec))
    (hclose : jsonLookup dayRec "4. close" = some cJ)
    (hpf : pyFloat cJ = some w) :
    daily_close (.ok (Json.obj dkvs)) = .ok (.daily w) := by
  have hne : tsKvs.isEmpty = false := by
    cases tsKvs with
    | nil => simp [latestDay] at hld
    | cons a l => rfl
  simp only [daily_close, hrl, hie, pyGet, hts, hne, hld, hlook, hclose, hpf,
    exceptBind_ok, exceptPure_bind, Bool.false_eq_true, if_false]
  rfl

end StockBot

namespace StockBot

/-! Claim theorems. -/

/-- C2: for every symbol, if the primary (live-quote) response is classified
as rate-limited, `fetch_quote` returns the RATE_LIMIT result immediately and
the daily-close fallback is never invoked during that call (invocation count
of `_daily_close` is zero). -/
theorem C2_rate_limit_skips_fallback (ticker : String) (j : Json) (dr : HttpResult)
    (h : is_rate_limited j = .ok true) :
    fetch_quote ticker ⟨.ok j, dr⟩ = .ok (.rateLimit, 0) :=
  fetch_quote_of_rate_limited ticker j dr h

/-- Witness for C2 at a concrete quota-notice payload. -/
theorem C2_rate_limit_skips_fallback_witness :
    is_rate_limited (Json.obj [("Note", Json.str "limit reached")]) = .ok true ∧
    fetch_quote "AAPL" ⟨.ok (Json.obj [("Note", Json.str "limit reached")]), .fail⟩ =
      .ok (.rateLimit, 0) :=
  ⟨rfl, C2_rate_limit_skips_fallback "AAPL" (Json.obj [("Note", Json.str "limit reached")]) .fail rfl⟩

/-- C3: the claim says `fetch_quote` never raises across its boundary for any
upstream response; the code contradicts this: on the payload
`\x7b"Global Quote": "hello"\x7d` the unguarded `quote.get("05. price")` of
line 90 is an attribute access on a string and raises `AttributeError`, which
escapes `fetch_quote` (the surrounding `try` of lines 95-102 does not cover
line 90). -/
theorem C3_nonmapping_global_quote_raises :
    fetch_quote "AAPL" ⟨.ok (Json.obj [("Global Quote", Json.str "hello")]), .fail⟩ =
      .error .attributeError := rfl

/-- C10: any dict payload carrying the key `Note`, or whose string rendering
contains the sentinel phrase, is classified rate-limited before any price
extraction, so `fetch_quote` returns RATE_LIMIT with zero fallback calls even
when a valid Global Quote price is present. -/
theorem C10_note_or_phrase_rate_limited (ticker : String) (kvs : List (String × Json))
    (dr : HttpResult)
    (h : ((kvs.map Prod.fst).contains "Note" ||
      containsSub (pyStr (Json.obj kvs)) "Thank you for using Alpha Vantage") = true) :
    fetch_quote ticker ⟨.ok (Json.obj kvs), dr⟩ = .ok (.rateLimit, 0) :=
  fetch_quote_of_rate_limited ticker (Json.obj kvs) dr
    ((is_rate_limited_obj kvs).trans (by rw [h]))

/-- Witness for C10: a payload that carries both a `Note` key and a valid
Global Quote price still resolves to RATE_LIMIT. -/
theorem C10_note_or_phrase_rate_limited_witness :
    ((([("Note", Json.str "x"),
        ("Global Quote", Json.obj [("05. price", Json.str "1.23")])] :
          List (String × Json)).map Prod.fst).contains "Note" ||
      containsSub (pyStr (Json.obj [("Note", Json.str "x"),
        ("Global Quote", Json.obj [("05. price", Json.str "1.23")])]))
        "Thank you for using Alpha Vantage") = true ∧
    fetch_quote "IBM" ⟨.ok (Json.obj [("Note", Json.str "x"),
        ("Global Quote", Json.obj [("05. price", Json.str "1.23")])]), .fail⟩ =
      .ok (.rateLimit, 0) :=
  ⟨rfl, C10_note_or_phrase_rate_limited "IBM"
    [("Note", Json.str "x"), ("Global Quote", Json.obj [("05. price", Json.str "1.23")])]
    .fail rfl⟩

/-- C6: on a dict live payload that is not rate-limited and whose extracted
Global Quote has a missing price field, or a price field whose `float(...)`
parse fails, `fetch_quote` invokes `_daily_close` exactly once (count 1) and
the outcome is exactly the mapped fallback result; missing and unparsable
prices follow the identical path, never a raised error. -/
theorem C6_fallback_once_on_missing_or_unparsable_price (ticker : String)
    (kvs qkvs : List (String × Json)) (px : Option Json) (dr : HttpResult)
    (hrl : is_rate_limited (Json.obj kvs) = .ok false)
    (hq : globalQuoteOf (Json.obj kvs) = .ok (Json.obj qkvs))
    (hpx : priceField (Json.obj qkvs) = .ok px)
    (hbad : px = none ∨ ∃ v, px = some v ∧ pyFloat v = none) :
    fetch_quote ticker ⟨.ok (Json.obj kvs), dr⟩ =
      Except.map (fun d => (dailyToQuote d, 1)) (daily_close dr) :=
  fetch_quote_fallback ticker kvs qkvs px dr hrl hq hpx hbad

/-- Witness for C6: an unparsable live price falls back to the daily close. -/
theorem C6_fallback_once_witness :
    fetch_quote "IBM"
      ⟨.ok (Json.obj [("Global Quote", Json.obj [("05. price", Json.str "oops")])]),
       .ok (Json.obj [("Time Series (Daily)",
         Json.obj [("2024-01-02", Json.obj [("4. close", Json.str "123.45")])])])⟩ =
      .ok (.dailyClose (.finite (mkRat 2469 20)), 1) := by
  have h := C6_fallback_once_on_missing_or_unparsable_price "IBM"
    [("Global Quote", Json.obj [("05. price", Json.str "oops")])]
    [("05. price", Json.str "oops")] (some (Json.str "oops"))
    (.ok (Json.obj [("Time Series (Daily)",
      Json.obj [("2024-01-02", Json.obj [("4. close", Json.str "123.45")])])]))
    rfl rfl rfl (Or.inr ⟨Json.str "oops", rfl, rfl⟩)
  exact h.trans rfl

end StockBot

namespace StockBot

/-- C7: for a dict daily payload that is neither rate-limited nor an
info/error notice, when the time series is a non-empty dict,
`_daily_close` selects the key chosen by `latestDay` — a member of the key
set dominating every key in code-point (lexicographic) order — and returns
that day's parsed closing price; an empty or non-dict time series yields no
data. -/
theorem C7_daily_close_latest_key (kvs tsKvs dayRec : List (String × Json))
    (d : String) (c ts2 : Json) (px : PyFloat) :
    (is_rate_limited (Json.obj kvs) = .ok false →
     is_info_or_error (Json.obj kvs) = .ok false →
     jsonLookup kvs "Time Series (Daily)" = some (Json.obj tsKvs) →
     latestDay (tsKvs.map Prod.fst) = some d →
     jsonLookup tsKvs d = some (Json.obj dayRec) →
     jsonLookup dayRec "4. close" = some c →
     pyFloat c = some px →
     d ∈ tsKvs.map Prod.fst ∧ (∀ k ∈ tsKvs.map Prod.fst, strLe k d = true) ∧
       daily_close (.ok (Json.obj kvs)) = .ok (.daily px)) ∧
    (is_rate_limited (Json.obj kvs) = .ok false →
     is_info_or_error (Json.obj kvs) = .ok false →
     jsonLookup kvs "Time Series (Daily)" = some ts2 →
     (ts2 = Json.obj [] ∨ ∀ l, ts2 ≠ Json.obj l) →
     daily_close (.ok (Json.obj kvs)) = .ok .noData) := by
  constructor
  · intro hrl hie hts hld hlook hclose hpf
    have hspec := latestDay_spec (tsKvs.map Prod.fst) d hld
    exact ⟨hspec.1, hspec.2,
      daily_close_latest kvs tsKvs dayRec d c px hrl hie hts hld hlook hclose hpf⟩
  · intro hrl hie hts hcase
    simp only [daily_close, hrl, hie, pyGet, hts,
      exceptBind_ok, exceptPure_bind, Bool.false_eq_true, if_false]
    rcases hcase with rfl | hno
    · rfl
    · cases ts2 with
      | obj l => exact absurd rfl (hno l)
      | null => rfl
      | bool b => rfl
      | num q => rfl
      | str s => rfl
      | arr es => rfl

/-- Witness for C7 at a two-day time series: the later date is selected. -/
theorem C7_daily_close_latest_key_witness :
    daily_close (.ok (Json.obj [("Time Series (Daily)", Json.obj
        [("2024-01-01", Json.obj [("4. close", Json.str "120.0")]),
         ("2024-01-02", Json.obj [("4. close", Json.str "123.45")])])])) =
      .ok (.daily (.finite (mkRat 2469 20))) :=
  ((C7_daily_close_latest_key
    [("Time Series (Daily)", Json.obj
        [("2024-01-01", Json.obj [("4. close", Json.str "120.0")]),
         ("2024-01-02", Json.obj [("4. close", Json.str "123.45")])])]
    [("2024-01-01", Json.obj [("4. close", Json.str "120.0")]),
     ("2024-01-02", Json.obj [("4. close", Json.str "123.45")])]
    [("4. close", Json.str "123.45")]
    "2024-01-02" (Json.str "123.45") Json.null (.finite (mkRat 2469 20))).1
    rfl rfl rfl rfl rfl rfl rfl).2.2

/-- A live payload whose Global Quote carries only a price field, as used by
claim C4. -/
def livePayload (s : String) : Json :=
  Json.obj [("Global Quote", Json.obj [("05. price", Json.str s)])]

/-- C4 (amended): the price carried by a quote result is exactly the value
`float(...)` parses from the upstream field, with no finiteness or sign
validation.  (a) Live path: on any dict payload that is not rate-limited,
whatever value the extracted price field parses to — negative, infinite or
NaN included — is returned as the Live price whenever the change field also
resolves.  (b) Fallback path: when the live price is missing or unparsable,
whatever value the selected latest day's `"4. close"` field parses to is
returned as the DailyClose price, equally unvalidated. -/
theorem C4_price_unvalidated_amended (ticker : String)
    (kvs qkvs dkvs tsKvs dayRec : List (String × Json))
    (pxv cJ : Json) (px : Option Json) (v c w : PyFloat) (d : String) (dr : HttpResult) :
    (is_rate_limited (Json.obj kvs) = .ok false →
     globalQuoteOf (Json.obj kvs) = .ok (Json.obj qkvs) →
     priceField (Json.obj qkvs) = .ok (some pxv) →
     pyFloat pxv = some v →
     chgParse (pyOrOpt (jsonLookup qkvs "09. change") (jsonLookup qkvs "09.change")) = some c →
     fetch_quote ticker ⟨.ok (Json.obj kvs), dr⟩ =
       .ok (.live v c (pctOr (pyOrOpt (jsonLookup qkvs "10. change percent")
         (jsonLookup qkvs "10.change percent"))), 0)) ∧
    (is_rate_limited (Json.obj kvs) = .ok false →
     globalQuoteOf (Json.obj kvs) = .ok (Json.obj qkvs) →
     priceField (Json.obj qkvs) = .ok px →
     (px = none ∨ ∃ u, px = some u ∧ pyFloat u = none) →
     is_rate_limited (Json.obj dkvs) = .ok false →
     is_info_or_error (Json.obj dkvs) = .ok false →
     jsonLookup dkvs "Time Series (Daily)" = some (Json.obj tsKvs) →
     latestDay (tsKvs.map Prod.fst) = some d →
     jsonLookup tsKvs d = some (Json.obj dayRec) →
     jsonLookup dayRec "4. close" = some cJ →
     pyFloat cJ = some w →
     fetch_quote ticker ⟨.ok (Json.obj kvs), .ok (Json.obj dkvs)⟩ =
       .ok (.dailyClose w, 1)) := by
  constructor
  · intro hrl hq hpx hpf hc
    simp only [fetch_quote, hrl, is_info_or_error_obj, hq, hpx, chgField_obj, pctField_obj,
      exceptBind_ok, exceptPure_bind, Bool.false_eq_true, if_false, tryLive_eq, hpf, hc]
    rfl
  · intro hrl hq hpx hbad hrl2 hie2 hts hld hlook hclose hpf
    have h1 := fetch_quote_fallback ticker kvs qkvs px (.ok (Json.obj dkvs)) hrl hq hpx hbad
    rw [h1, daily_close_latest dkvs tsKvs dayRec d cJ w hrl2 hie2 hts hld hlook hclose hpf]
    rfl

/-- Counterexample for C4 as frozen: a payload whose price field parses to a
negative number is returned as a Live quote with that negative price. -/
theorem C4_negative_price_counterexample :
    fetch_quote "AAPL" ⟨.ok (livePayload "-5"), .fail⟩ =
      .ok (.live (.finite (mkRat (-5) 1)) (.finite 0) (.str "0.00%"), 0) ∧
    mkRat (-5) 1 < 0 := ⟨rfl, by decide⟩

/-- Witness for the amended C4, exercising both parts at concrete negative
price strings: the Live price is the parse of `"-5"` and the DailyClose
price the parse of `"-7.5"`, both negative and both returned unvalidated. -/
theorem C4_price_unvalidated_amended_witness :
    fetch_quote "MSFT" ⟨.ok (livePayload "-5"), .fail⟩ =
      .ok (.live (.finite (mkRat (-5) 1)) (.finite 0) (.str "0.00%"), 0) ∧
    fetch_quote "MSFT" ⟨.ok (Json.obj []), .ok (Json.obj [("Time Series (Daily)",
        Json.obj [("2024-01-02", Json.obj [("4. close", Json.str "-7.5")])])])⟩ =
      .ok (.dailyClose (.finite (mkRat (-15) 2)), 1) ∧
    mkRat (-5) 1 < 0 ∧ mkRat (-15) 2 < 0 := by
  refine ⟨?_, ?_, by decide, by decide⟩
  · have hpf : pyFloat (Json.str "-5") = some (.finite (mkRat (-5) 1)) := rfl
    have h := (C4_price_unvalidated_amended "MSFT"
      [("Global Quote", Json.obj [("05. price", Json.str "-5")])]
      [("05. price", Json.str "-5")] [] [] []
      (Json.str "-5") Json.null none
      (.finite (mkRat (-5) 1)) (.finite 0) (.finite 0) "" .fail).1
      rfl rfl rfl hpf rfl
    exact h.trans rfl
  · have hpf : pyFloat (Json.str "-7.5") = some (.finite (mkRat (-15) 2)) := rfl
    exact (C4_price_unvalidated_amended "MSFT" [] []
      [("Time Series (Daily)",
        Json.obj [("2024-01-02", Json.obj [("4. close", Json.str "-7.5")])])]
      [("2024-01-02", Json.obj [("4. close", Json.str "-7.5")])]
      [("4. close", Json.str "-7.5")]
      Json.null (Json.str "-7.5") none
      (.finite 0) (.finite 0) (.finite (mkRat (-15) 2)) "2024-01-02" .fail).2
      rfl rfl rfl (Or.inl rfl) rfl rfl rfl rfl rfl rfl hpf

end StockBot

namespace StockBot

/-- C5 (amended): only `build_price_text` — the deferred `/price` reply —
checks the credential: with the key absent it short-circuits to the
configuration-missing line before any quote fetch, for every upstream
behaviour; process startup never fails.  The watchlist listing performs no
such check (see the counterexample). -/
theorem C5_missing_key_message_amended (ticker : String) (up : Upstream) :
    build_price_text "" ticker up =
      .ok (pyUpper ticker ++ ": Alpha Vantage API key missing.") := rfl

/-- Counterexample for C5 as frozen: with the credential absent, a watchlist
line renders from the fetch outcome — here `"(no data)"` — and not a
configuration-missing message (`build_watchlist_text` takes no credential at
all). -/
theorem C5_watchlist_ignores_credential_counterexample :
    build_watchlist_text ["AAPL"] (fun _ => ⟨.fail, .fail⟩) =
      .ok "📊 Watchlist:\nAAPL: (no data)" ∧
    containsSub "📊 Watchlist:\nAAPL: (no data)" "missing" = false := ⟨rfl, rfl⟩

/-- C1 (amended): for a non-empty `/price` command whose `fetch_quote` call
returns a value, the coordinator replies immediately in-channel with the
formatted text and schedules no background work exactly when the result is
Live (GLOBAL) or DailyClose (DAILY); both RateLimited and Unavailable take
the deferred path: an ephemeral `"Working…"` acknowledgment plus a background
thread. -/
theorem C1_fast_path_amended (raw : String) (up : Upstream) (q : QuoteResult) (n : Nat)
    (hne : pyStrip raw ≠ "")
    (hfq : fetch_quote (pyStrip raw) up = .ok (q, n)) :
    (∀ p c pct, q = .live p c pct →
       cmd_price raw up = .ok (⟨"in_channel", liveMsg (pyUpper (pyStrip raw)) p c pct⟩, false)) ∧
    (∀ p, q = .dailyClose p →
       cmd_price raw up = .ok (⟨"in_channel", dailyMsg (pyUpper (pyStrip raw)) p⟩, false)) ∧
    ((q = .rateLimit ∨ q = .noData) →
       cmd_price raw up = .ok (⟨"ephemeral", "Working…"⟩, true)) := by
  refine ⟨?_, ?_, ?_⟩
  · intro p c pct hq
    subst hq
    simp only [cmd_price, if_neg hne, hfq, exceptBind_ok]
    rfl
  · intro p hq
    subst hq
    simp only [cmd_price, if_neg hne, hfq, exceptBind_ok]
    rfl
  · intro hq
    rcases hq with rfl | rfl <;>
      simp only [cmd_price, if_neg hne, hfq, exceptBind_ok] <;> rfl

/-- The upstream responses of the C1 witness: a valid Global Quote. -/
def upLiveW : Upstream :=
  ⟨.ok (Json.obj [("Global Quote", Json.obj
    [("05. price", Json.str "189.5"), ("09. change", Json.str "-1.2"),
     ("10. change percent", Json.str "-0.63%")])]), .fail⟩

/-- Witness for the amended C1: a live quote is answered in-channel with the
formatted text and no background thread. -/
theorem C1_fast_path_amended_witness :
    cmd_price " aapl " upLiveW =
      .ok (⟨"in_channel", "AAPL: $189.50 (Δ -1.2000, -0.63%)"⟩, false) := by
  have hne : pyStrip " aapl " ≠ "" := by decide
  have hfq : fetch_quote (pyStrip " aapl ") upLiveW =
      .ok (.live (.finite (mkRat 379 2)) (.finite (mkRat (-6) 5)) (Json.str "-0.63%"), 0) := rfl
  have h := (C1_fast_path_amended " aapl " upLiveW
    (.live (.finite (mkRat 379 2)) (.finite (mkRat (-6) 5)) (Json.str "-0.63%")) 0
    hne hfq).1
    (.finite (mkRat 379 2)) (.finite (mkRat (-6) 5)) (Json.str "-0.63%") rfl
  exact h.trans rfl

/-- Counterexample for C1 as frozen: an Unavailable result (both sources
empty) is not answered synchronously; the coordinator replies `"Working…"`
ephemerally and schedules the background thread, exactly as for RateLimited. -/
theorem C1_unavailable_defers_counterexample :
    fetch_quote "AAPL" ⟨.fail, .fail⟩ = .ok (.noData, 1) ∧
    cmd_price "AAPL" ⟨.fail, .fail⟩ = .ok (⟨"ephemeral", "Working…"⟩, true) := ⟨rfl, rfl⟩

/-- C8: when the watchlist is non-empty and every symbol's `fetch_quote`
returns a value, the reply is the header plus exactly one line per symbol of
the sorted watchlist; a RateLimited symbol's line reports the limitation, an
unresolvable one reports no data, and every other symbol still renders — the
loop never aborts on such outcomes. -/
theorem C8_watchlist_one_line_per_symbol (wl : List String) (env : String → Upstream)
    (res : String → QuoteResult) (cnt : String → Nat)
    (hne : wl ≠ [])
    (h : ∀ t ∈ sortSymbols wl, fetch_quote t (env t) = .ok (res t, cnt t)) :
    build_watchlist_text wl env =
      .ok ("📊 Watchlist:\n" ++ String.intercalate "\n"
        ((sortSymbols wl).map (fun t => watchLine t (res t)))) ∧
    ((sortSymbols wl).map (fun t => watchLine t (res t))).length = wl.length ∧
    (∀ t, watchLine t .rateLimit = t ++ ": rate limited (try later)") ∧
    (∀ t, watchLine t .noData = t ++ ": (no data)") := by
  refine ⟨?_, ?_, fun t => rfl, fun t => rfl⟩
  · have hmap : mapExcept (fun t => do
        let q ← fetch_quote t (env t)
        pure (watchLine t q.1)) (sortSymbols wl) =
        .ok ((sortSymbols wl).map (fun t => watchLine t (res t))) := by
      apply mapExcept_ok
      intro t ht
      rw [h t ht]
      rfl
    unfold build_watchlist_text
    rw [if_neg (by simp [List.isEmpty_iff, hne]), hmap]
    rfl
  · rw [List.length_map, sortSymbols_length]

/-- Upstream environment of the C8 witness: AAPL has a live quote, every
other symbol fails on both endpoints. -/
def envMixedW : String → Upstream := fun t =>
  if t = "AAPL" then
    ⟨.ok (Json.obj [("Global Quote", Json.obj [("05. price", Json.str "189.5")])]), .fail⟩
  else ⟨.fail, .fail⟩

/-- Resolution outcomes of the C8 witness. -/
def resMixedW : String → QuoteResult := fun t =>
  if t = "AAPL" then .live (.finite (mkRat 379 2)) (.finite 0) (Json.str "0.00%")
  else .noData

/-- Fallback-invocation counts of the C8 witness. -/
def cntMixedW : String → Nat := fun t => if t = "AAPL" then 0 else 1

/-- Witness for C8: an unresolvable symbol gets a no-data line while the
other symbol still renders its quote. -/
theorem C8_watchlist_one_line_per_symbol_witness :
    build_watchlist_text ["ZZZZ", "AAPL"] envMixedW =
      .ok "📊 Watchlist:\nAAPL: $189.50 (Δ 0.0000, 0.00%)\nZZZZ: (no data)" := by
  have h := (C8_watchlist_one_line_per_symbol ["ZZZZ", "AAPL"] envMixedW resMixedW cntMixedW
    (by simp)
    (by
      intro t ht
      have ht2 : t ∈ ["AAPL", "ZZZZ"] := ht
      simp only [List.mem_cons, List.not_mem_nil, or_false] at ht2
      rcases ht2 with rfl | rfl <;> rfl)).1
  exact h.trans rfl

end StockBot

namespace StockBot

/-- Characterization of the remove loop on duplicate-free stores and inputs:
the final store keeps exactly the symbols outside the input, the removed
report is the input filtered to present symbols, the missing report the
input filtered to absent symbols. -/
theorem removeGo_spec (tickers : List String) : ∀ wl : List String,
    wl.Nodup → tickers.Nodup →
    removeGo wl tickers =
      (wl.filter (fun s => decide (s ∉ tickers)),
       tickers.filter (fun t => decide (t ∈ wl)),
       tickers.filter (fun t => decide (t ∉ wl))) := by
  induction tickers with
  | nil =>
    intro wl hwl hts
    simp [removeGo]
  | cons t ts ih =>
    intro wl hwl hts
    have htts : t ∉ ts := (List.nodup_cons.mp hts).1
    have hts2 : ts.Nodup := (List.nodup_cons.mp hts).2
    by_cases h : t ∈ wl
    · have e1 : (wl.erase t).filter (fun s => decide (s ∉ ts)) =
          wl.filter (fun s => decide (s ∉ t :: ts)) := by
        rw [hwl.erase_eq_filter t, List.filter_filter]
        apply List.filter_congr
        intro s _
        simp only [List.mem_cons, not_or, Bool.decide_and, decide_not, bne]
        rw [Bool.and_comm]
        congr 1
      have e2 : t :: ts.filter (fun x => decide (x ∈ wl.erase t)) =
          (t :: ts).filter (fun x => decide (x ∈ wl)) := by
        rw [List.filter_cons, if_pos (by simpa using h)]
        congr 1
        apply List.filter_congr
        intro x hx
        have hxt : x ≠ t := fun heq => htts (heq ▸ hx)
        simp [List.mem_erase_of_ne hxt]
      have e3 : ts.filter (fun x => decide (x ∉ wl.erase t)) =
          (t :: ts).filter (fun x => decide (x ∉ wl)) := by
        rw [List.filter_cons, if_neg (by simpa using h)]
        apply List.filter_congr
        intro x hx
        have hxt : x ≠ t := fun heq => htts (heq ▸ hx)
        simp [List.mem_erase_of_ne hxt]
      simp only [removeGo, if_pos h]
      rw [ih (wl.erase t) (hwl.erase t) hts2, e1, e2, e3]
    · have e1 : wl.filter (fun s => decide (s ∉ ts)) =
          wl.filter (fun s => decide (s ∉ t :: ts)) := by
        apply List.filter_congr
        intro s hs
        have hst : s ≠ t := fun heq => h (heq ▸ hs)
        simp [List.mem_cons, hst]
      have e2 : ts.filter (fun x => decide (x ∈ wl)) =
          (t :: ts).filter (fun x => decide (x ∈ wl)) := by
        rw [List.filter_cons, if_neg (by simpa using h)]
      have e3 : t :: ts.filter (fun x => decide (x ∉ wl)) =
          (t :: ts).filter (fun x => decide (x ∉ wl)) := by
        rw [List.filter_cons, if_pos (by simpa using h)]
      simp only [removeGo, if_neg h]
      rw [ih wl hwl hts2, e1, e2, e3]

/-- C9 (amended): on a duplicate-free input list, `remove` partitions the
input into the symbols present in the store (reported removed and deleted
from the store) and the absent ones (reported missing), and no symbol is
reported in both lists.  With duplicated input symbols the loop re-tests
after deletion, so the same symbol can be reported once removed and once
missing (see the counterexample). -/
theorem C9_remove_partition_amended (wl tickers : List String)
    (hwl : wl.Nodup) (hts : tickers.Nodup) :
    removeSymbols wl tickers =
      (wl.filter (fun s => decide (s ∉ tickers)),
       tickers.filter (fun t => decide (t ∈ wl)),
       tickers.filter (fun t => decide (t ∉ wl))) ∧
    ∀ s, ¬(s ∈ tickers.filter (fun t => decide (t ∈ wl)) ∧
           s ∈ tickers.filter (fun t => decide (t ∉ wl))) := by
  refine ⟨removeGo_spec tickers wl hwl hts, ?_⟩
  intro s hs
  rcases hs with ⟨h1, h2⟩
  rw [List.mem_filter] at h1 h2
  rcases h1 with ⟨-, hp⟩
  rcases h2 with ⟨-, hq⟩
  simp only [decide_eq_true_eq] at hp hq
  exact hq hp

/-- Witness for the amended C9 at the spec's own example: removing `MSFT`
from an empty store reports nothing removed and `MSFT` missing. -/
theorem C9_remove_partition_amended_witness :
    removeSymbols [] ["MSFT"] = ([], [], ["MSFT"]) := by
  have h := (C9_remove_partition_amended [] ["MSFT"] (by simp) (by simp)).1
  exact h.trans rfl

/-- Counterexample for C9 as frozen: with the duplicated input
`["AAPL", "AAPL"]` on the store `{"AAPL"}`, the symbol is reported both
removed and missing — the input is not partitioned. -/
theorem C9_duplicate_input_counterexample :
    removeSymbols ["AAPL"] ["AAPL", "AAPL"] = ([], ["AAPL"], ["AAPL"]) ∧
    "AAPL" ∈ (removeSymbols ["AAPL"] ["AAPL", "AAPL"]).2.1 ∧
    "AAPL" ∈ (removeSymbols ["AAPL"] ["AAPL", "AAPL"]).2.2 :=
  ⟨rfl, List.mem_cons_self "AAPL" [], List.mem_cons_self "AAPL" []⟩

end StockBot
